import Mathlib

/-!
# mmap-example.c : session, mapping and fault handlers

A shallow embedding of the character-device handlers of `mmap-example.c`
(`mmapfop_open`, `mmapfop_close`, `op_mmap`, `mmap_open`, `mmap_close`,
`mmap_fault`) as functions on an explicit kernel state, followed by the
properties of the session / mapping subsystem.

Modelling conventions

* Pointers are natural numbers, `0` is `NULL`.
* `int reference` is a 32-bit two's-complement integer: every update goes
  through `wrap32` (the kernel is built with wrapping signed arithmetic).
* The kmalloc heap maps an address to a `Slot`. `kfree` releases a block but
  leaves its bytes in place, and the handlers have no test for a released
  block: a read through a pointer to a released block returns the bytes still
  there and a write changes them, and the handler goes on. A null pointer or
  an address that never held a record has no bytes to give: an access through
  it is reported as a `Fault`, together with the state at that point.
* Every page frame has a `struct page` with a use count, as in the kernel:
  `get_zeroed_page` hands out the frame with count 1, `get_page` adds one,
  `free_page` drops one, and the frame is free exactly when the count is 0.
* The results of the allocators (`kmalloc`, `get_zeroed_page`) are chosen by
  the environment and are passed in as an `Alloc` record; `kmalloc` does not
  clear the block it returns, so the previous contents of the block are part
  of that record.
* `PAGE_SIZE` and `VM_RESERVED` come from kernel headers and are parameters.
-/

namespace MmapExample

/-! ## Data model -/

/-- Constants taken from the kernel headers. -/
structure Config where
  PAGE_SIZE : Nat
  VM_RESERVED : Nat
  deriving DecidableEq, Repr

/-- The errno value behind `-EBUSY`. -/
def EBUSY : Int := 16

/-- Reduction of an integer to the range of a 32-bit C `int`. -/
def wrap32 (x : Int) : Int := (x + 2147483648) % 4294967296 - 2147483648

/-- Memory-safety violations a handler can run into. -/
inductive Fault
  | nullDeref
  | wildPointer (addr : Nat)
  | outOfBounds
  | badPageFree (addr : Nat)
  deriving DecidableEq, Repr

/-- Outcome of a handler that returns `int`. -/
inductive Ret
  | ok (v : Int)
  | fault (f : Fault)
  deriving DecidableEq, Repr

/-- The record `struct mmap_info`. -/
structure mmap_info where
  data : Nat
  reference : Int
  deriving DecidableEq, Repr

/-- State of one address of the kmalloc heap; a released block keeps the bytes
it held when it was released. -/
inductive Slot
  | unallocated
  | live (info : mmap_info)
  | freed (stale : mmap_info)
  deriving DecidableEq, Repr

/-- One page frame: the use count of its `struct page` and its bytes. -/
structure page where
  count : Nat
  bytes : List Nat
  deriving DecidableEq, Repr

/-- Global state: the device mutex, the kmalloc heap and the page frames. -/
structure Kernel where
  mmap_device_mutex : Bool
  infos : Nat → Slot
  pages : Nat → page

/-- The fields of `struct file` the handlers use; `d_name` holds the bytes of
`f_path.dentry->d_name.name` in front of its terminating NUL. -/
structure file where
  d_name : List Nat
  private_data : Nat
  deriving DecidableEq, Repr

/-- Operation tables a mapping can point to. -/
inductive VmOps
  | mmap_vm_ops
  deriving DecidableEq, Repr

/-- The fields of `struct vm_area_struct` that describe a mapping request and
those the handlers write. -/
structure vm_area_struct where
  vm_start : Nat
  vm_end : Nat
  vm_pgoff : Nat
  vm_flags : Nat
  vm_ops : Option VmOps
  vm_private_data : Nat
  deriving DecidableEq, Repr

/-- The field of `struct vm_fault` the fault handler writes: the page bound to
the faulting address, `none` for a null pointer. -/
structure vm_fault where
  page : Option Nat
  deriving DecidableEq, Repr

/-- What the allocators return during one call of `mmapfop_open`: the address
returned by `kmalloc` (0 on failure), the bytes already in that block, and the
address returned by `get_zeroed_page` (0 on failure). -/
structure Alloc where
  info_addr : Nat
  info_garbage : mmap_info
  page_addr : Nat
  deriving DecidableEq, Repr

/-! ## Kernel services used by the handlers -/

/-- Read of `*p` for a `struct mmap_info *p`; through a pointer to a released
block the read returns the bytes left in the block. -/
def deref (k : Kernel) (p : Nat) : Except Fault mmap_info :=
  if p = 0 then .error .nullDeref
  else
    match k.infos p with
    | .live info => .ok info
    | .freed stale => .ok stale
    | .unallocated => .error (.wildPointer p)

/-- Write of `*p` for a pointer that `deref` accepted; a released block stays
released and holds the new bytes. -/
def store (k : Kernel) (p : Nat) (info : mmap_info) : Kernel :=
  let slot : Slot :=
    match k.infos p with
    | .freed _ => .freed info
    | _ => .live info
  { k with infos := Function.update k.infos p slot }

/-- Model of `kmalloc(sizeof(struct mmap_info), GFP_KERNEL)`: the block is
returned as it is, not cleared. -/
def kmalloc (a : Alloc) (k : Kernel) : Nat × Kernel :=
  if a.info_addr = 0 then (0, k)
  else (a.info_addr, { k with infos := Function.update k.infos a.info_addr (.live a.info_garbage) })

/-- Model of `kfree`: a live block is released with its bytes left in place;
nothing for a null pointer or for a block that is not live. -/
def kfree (k : Kernel) (p : Nat) : Kernel :=
  if p = 0 then k
  else
    match k.infos p with
    | .live info => { k with infos := Function.update k.infos p (.freed info) }
    | _ => k

/-- Model of `get_zeroed_page(GFP_KERNEL)`: one frame of `PAGE_SIZE` zero bytes
with use count 1. -/
def get_zeroed_page (cfg : Config) (a : Alloc) (k : Kernel) : Nat × Kernel :=
  if a.page_addr = 0 then (0, k)
  else
    let pg : page := ⟨1, List.replicate cfg.PAGE_SIZE 0⟩
    (a.page_addr, { k with pages := Function.update k.pages a.page_addr pg })

/-- Model of `free_page`: nothing for address 0, otherwise one use of the frame
is dropped; the frame is back with the allocator when the count reaches 0. -/
def free_page (k : Kernel) (addr : Nat) : Except Fault Kernel :=
  if addr = 0 then .ok k
  else if (k.pages addr).count = 0 then .error (.badPageFree addr)
  else
    let pg : page := { (k.pages addr) with count := (k.pages addr).count - 1 }
    .ok { k with pages := Function.update k.pages addr pg }

/-- Model of `virt_to_page`: a frame is named by its kernel address. -/
def virt_to_page (addr : Nat) : Nat := addr

/-- Model of `get_page`: one more use of the frame. -/
def get_page (k : Kernel) (pg : Nat) : Kernel :=
  let p : page := { (k.pages pg) with count := (k.pages pg).count + 1 }
  { k with pages := Function.update k.pages pg p }

/-- The memory object of a C string: its bytes and the terminating NUL. -/
def cstr (s : List Nat) : List Nat := s ++ [0]

/-- Model of `strlen` on a memory object. -/
def strlen (mem : List Nat) : Nat := (mem.takeWhile (fun b => b != 0)).length

/-- Model of `memcpy(dst + off, src, n)` for a destination inside the page
frame at `dst`. -/
def memcpy (k : Kernel) (dst off : Nat) (src : List Nat) (n : Nat) : Except Fault Kernel :=
  if dst = 0 then .error .nullDeref
  else if off + n ≤ (k.pages dst).bytes.length ∧ n ≤ src.length then
    let old := (k.pages dst).bytes
    let pg : page := { (k.pages dst) with bytes := old.take off ++ src.take n ++ old.drop (off + n) }
    .ok { k with pages := Function.update k.pages dst pg }
  else .error .outOfBounds

/-- The bytes of the string literal `"Hello from kernel this is file: "`. -/
def greeting : List Nat := "Hello from kernel this is file: ".toList.map Char.toNat

/-! ## The handlers -/

/-- Handler `mmap_open`: `info->reference++`. -/
def mmap_open (k : Kernel) (vma : vm_area_struct) : Option Fault × Kernel :=
  match deref k vma.vm_private_data with
  | .error f => (some f, k)
  | .ok info =>
    (none, store k vma.vm_private_data { info with reference := wrap32 (info.reference + 1) })

/-- Handler `mmap_close`: `info->reference--`. -/
def mmap_close (k : Kernel) (vma : vm_area_struct) : Option Fault × Kernel :=
  match deref k vma.vm_private_data with
  | .error f => (some f, k)
  | .ok info =>
    (none, store k vma.vm_private_data { info with reference := wrap32 (info.reference - 1) })

/-- Handler `mmap_fault`. -/
def mmap_fault (k : Kernel) (vma : vm_area_struct) (vmf : vm_fault) : Ret × Kernel × vm_fault :=
  match deref k vma.vm_private_data with
  | .error f => (.fault f, k, vmf)
  | .ok info =>
    if info.data = 0 then
      -- printk("No data\n"); return 0;
      (.ok 0, k, vmf)
    else
      let pg := virt_to_page info.data
      (.ok 0, get_page k pg, { vmf with page := some pg })

/-- Handler `op_mmap`. -/
def op_mmap (cfg : Config) (k : Kernel) (filp : file) (vma : vm_area_struct) :
    Ret × Kernel × vm_area_struct :=
  let vma1 : vm_area_struct :=
    { vma with
      vm_ops := some .mmap_vm_ops
      vm_flags := vma.vm_flags ||| cfg.VM_RESERVED
      vm_private_data := filp.private_data }
  match mmap_open k vma1 with
  | (some f, k1) => (.fault f, k1, vma1)
  | (none, k1) => (.ok 0, k1, vma1)

/-- Handler `mmapfop_close`. -/
def mmapfop_close (k : Kernel) (filp : file) : Ret × Kernel × file :=
  match deref k filp.private_data with
  | .error f => (.fault f, k, filp)
  | .ok info =>
    match free_page k info.data with
    | .error f => (.fault f, k, filp)
    | .ok k1 =>
      let k2 := kfree k1 filp.private_data
      (.ok 0, { k2 with mmap_device_mutex := false }, { filp with private_data := 0 })

/-- Handler `mmapfop_open`. -/
def mmapfop_open (cfg : Config) (a : Alloc) (k : Kernel) (filp : file) : Ret × Kernel × file :=
  if k.mmap_device_mutex then
    -- mutex_trylock failed
    (.ok (-EBUSY), k, filp)
  else
    let k0 : Kernel := { k with mmap_device_mutex := true }
    let (info, k1) := kmalloc a k0
    let (d, k2) := get_zeroed_page cfg a k1
    -- info->data = d
    match deref k2 info with
    | .error f => (.fault f, k2, filp)
    | .ok i =>
      let k3 := store k2 info { i with data := d }
      match memcpy k3 d 0 (cstr greeting) 32 with
      | .error f => (.fault f, k3, filp)
      | .ok k4 =>
        match memcpy k4 d 32 (cstr filp.d_name) (strlen (cstr filp.d_name)) with
        | .error f => (.fault f, k4, filp)
        | .ok k5 => (.ok 0, k5, { filp with private_data := info })

/-- Contents of the session page after the two `memcpy` calls of
`mmapfop_open` on a file with the given name bytes. -/
def payload (cfg : Config) (name : List Nat) : List Nat :=
  greeting ++ (cstr name).take (strlen (cstr name)) ++
    List.replicate (cfg.PAGE_SIZE - 32 - strlen (cstr name)) 0

/-! ## Call sequences -/

/-- One call of the session entry points; the `struct file` handed to each call
is arbitrary. -/
inductive Call
  | do_open (a : Alloc) (filp : file)
  | do_close (filp : file)
  deriving DecidableEq, Repr

/-- Whether a call is a call of `mmapfop_open`. -/
def Call.isOpen : Call → Bool
  | .do_open _ _ => true
  | .do_close _ => false

/-- One call on the global state: its result and the state after it. -/
def step (cfg : Config) (k : Kernel) : Call → Ret × Kernel
  | .do_open a filp => ((mmapfop_open cfg a k filp).1, (mmapfop_open cfg a k filp).2.1)
  | .do_close filp => ((mmapfop_close k filp).1, (mmapfop_close k filp).2.1)

/-- Results of a sequence of calls, in order. -/
def run (cfg : Config) : Kernel → List Call → List Ret
  | _, [] => []
  | k, c :: cs => (step cfg k c).1 :: run cfg (step cfg k c).2 cs

/-- State after a sequence of calls. -/
def runState (cfg : Config) : Kernel → List Call → Kernel
  | k, [] => k
  | k, c :: cs => runState cfg (step cfg k c).2 cs

/-- Invocations of the `open` and `close` entries of `mmap_vm_ops`. -/
inductive VmaCall
  | vm_open
  | vm_close
  deriving DecidableEq, Repr

/-- State after one `mmap_open` or `mmap_close` on a mapping. -/
def vmaStep (k : Kernel) (vma : vm_area_struct) : VmaCall → Kernel
  | .vm_open => (mmap_open k vma).2
  | .vm_close => (mmap_close k vma).2

/-- State after a sequence of `mmap_open` / `mmap_close` calls on a mapping. -/
def vmaRun (k : Kernel) (vma : vm_area_struct) : List VmaCall → Kernel
  | [] => k
  | c :: cs => vmaRun (vmaStep k vma c) vma cs

/-- The mapping reference count stored in the live record at `p`; `none` when
the block at `p` is not a live record. -/
def referenceAt (k : Kernel) (p : Nat) : Option Int :=
  match k.infos p with
  | .live info => some info.reference
  | _ => none

/-- Consecutive `mmap_fault` calls on one mapping, one per fault descriptor:
the result and descriptor of each call, and the final state. -/
def faultRun (k : Kernel) (vma : vm_area_struct) :
    List vm_fault → List (Ret × vm_fault) × Kernel
  | [] => ([], k)
  | vmf :: rest =>
    let r := mmap_fault k vma vmf
    let t := faultRun r.2.1 vma rest
    ((r.1, r.2.2) :: t.1, t.2)

/-! ## Concrete states used in the examples -/

/-- Constants of a 4 KiB-page kernel without a native `VM_RESERVED`. -/
def cfg4k : Config := ⟨4096, 0x04040000⟩

/-- State with the device free, an empty heap and no frame in use. -/
def kernelIdle : Kernel := ⟨false, fun _ => .unallocated, fun _ => ⟨0, []⟩⟩

/-- File named `foo`, not opened yet. -/
def fileFoo : file := ⟨[102, 111, 111], 0⟩

/-- Allocator answers: record at address 64 (holding stale bytes), page at 4096. -/
def allocOk : Alloc := ⟨64, ⟨0, 7⟩, 4096⟩

/-- State with one session open on `foo`: record at 64, page at 4096, two
mappings counted. -/
def kernelSession : Kernel :=
  ⟨true, fun p => if p = 64 then .live ⟨4096, 2⟩ else .unallocated,
    fun d => if d = 4096 then ⟨1, payload cfg4k [102, 111, 111]⟩ else ⟨0, []⟩⟩

/-- File `foo` once opened in `kernelSession`. -/
def fileOpened : file := ⟨[102, 111, 111], 64⟩

/-- State with one session open whose mapping reference count is 0. -/
def kernelZeroRef : Kernel :=
  ⟨true, fun p => if p = 64 then .live ⟨4096, 0⟩ else .unallocated,
    fun d => if d = 4096 then ⟨1, payload cfg4k [102, 111, 111]⟩ else ⟨0, []⟩⟩

/-- State with a session record whose `data` pointer is null. -/
def kernelNoData : Kernel :=
  ⟨true, fun p => if p = 64 then .live ⟨0, 1⟩ else .unallocated, fun _ => ⟨0, []⟩⟩

/-- Mapping request for one page at offset 0, before `op_mmap`. -/
def vmaRequest : vm_area_struct := ⟨0x7f0000000000, 0x7f0000001000, 0, 0, none, 0⟩

/-- Mapping request for two pages at page offset 1, before `op_mmap`. -/
def vmaBadRequest : vm_area_struct := ⟨0x7f0000000000, 0x7f0000002000, 1, 0, none, 0⟩

/-- A sequence of mapping calls with as many closes as opens. -/
def opsBalanced : List VmaCall := [.vm_open, .vm_open, .vm_close, .vm_close]

/-- Mapping established on the session record at 64. -/
def vmaMapped : vm_area_struct :=
  ⟨0x7f0000000000, 0x7f0000001000, 0, 0x04040000, some .mmap_vm_ops, 64⟩

/-- Allocator answers with `kmalloc` failing. -/
def allocNoInfo : Alloc := ⟨0, ⟨0, 0⟩, 4096⟩

/-- Allocator answers with `get_zeroed_page` failing. -/
def allocNoPage : Alloc := ⟨64, ⟨0, 0⟩, 0⟩

/-- First step of the mapping scenario: `foo` opened on the idle device, with
`kmalloc` returning a block whose `reference` bytes hold 7. -/
def scenarioOpen : Ret × Kernel × file := mmapfop_open cfg4k allocOk kernelIdle fileFoo

/-- Second step: the mapping is established by `op_mmap`. -/
def scenarioMmap : Ret × Kernel × vm_area_struct :=
  op_mmap cfg4k scenarioOpen.2.1 scenarioOpen.2.2 vmaRequest

/-- Third step: the mapping is duplicated, `mmap_open`. -/
def scenarioDup : Option Fault × Kernel := mmap_open scenarioMmap.2.1 scenarioMmap.2.2

/-- Fourth step: one of the two mappings is torn down, `mmap_close`. -/
def scenarioUnmap1 : Option Fault × Kernel := mmap_close scenarioDup.2 scenarioMmap.2.2

/-- Fifth step: the other mapping is torn down, `mmap_close`. -/
def scenarioUnmap2 : Option Fault × Kernel := mmap_close scenarioUnmap1.2 scenarioMmap.2.2

/-! ## Facts about the kernel services and `mmapfop_open` -/

theorem memcpy_mutex (k k1 : Kernel) (dst off : Nat) (src : List Nat) (n : Nat)
    (h : memcpy k dst off src n = .ok k1) : k1.mmap_device_mutex = k.mmap_device_mutex := by
  unfold memcpy at h
  split_ifs at h
  cases h
  rfl

theorem kmalloc_mutex (a : Alloc) (k : Kernel) :
    (kmalloc a k).2.mmap_device_mutex = k.mmap_device_mutex := by
  unfold kmalloc; split_ifs <;> rfl

theorem get_zeroed_page_mutex (cfg : Config) (a : Alloc) (k : Kernel) :
    (get_zeroed_page cfg a k).2.mmap_device_mutex = k.mmap_device_mutex := by
  unfold get_zeroed_page; split_ifs <;> rfl

theorem open_busy (cfg : Config) (a : Alloc) (k : Kernel) (filp : file)
    (h : k.mmap_device_mutex = true) :
    mmapfop_open cfg a k filp = (.ok (-EBUSY), k, filp) := by
  simp [mmapfop_open, h]

theorem open_holds_mutex (cfg : Config) (a : Alloc) (k : Kernel) (filp : file) :
    (mmapfop_open cfg a k filp).2.1.mmap_device_mutex = true := by
  unfold mmapfop_open
  by_cases h : k.mmap_device_mutex = true
  · simp [h]
  · have hk2 : (get_zeroed_page cfg a
        (kmalloc a { k with mmap_device_mutex := true }).2).2.mmap_device_mutex = true := by
      rw [get_zeroed_page_mutex, kmalloc_mutex]
    rw [if_neg h]
    dsimp only
    split
    · exact hk2
    · split
      · exact hk2
      · rename_i k4 h4
        have h4m := memcpy_mutex _ _ _ _ _ _ h4
        split
        · rw [h4m]; exact hk2
        · rename_i k5 h5
          have h5m := memcpy_mutex _ _ _ _ _ _ h5
          show k5.mmap_device_mutex = true
          rw [h5m, h4m]; exact hk2

theorem strlen_le (mem : List Nat) : strlen mem ≤ mem.length := by
  unfold strlen
  exact (List.takeWhile_sublist _).length_le

theorem strlen_cstr (s : List Nat) (h : 0 ∉ s) : strlen (cstr s) = s.length := by
  induction s with
  | nil => rfl
  | cons x xs ih =>
    have hx : x ≠ 0 := fun e => h (by simp [e])
    have hxs : 0 ∉ xs := fun e => h (by simp [e])
    have ih1 := ih hxs
    unfold strlen cstr at *
    simp [List.takeWhile_cons, hx, ih1]

theorem take_cstr (s : List Nat) : (cstr s).take s.length = s := by
  unfold cstr
  simp

theorem greeting_length : greeting.length = 32 := by decide

theorem take_greeting : (cstr greeting).take 32 = greeting := by decide

theorem kmalloc_ok (a : Alloc) (k : Kernel) (hi : a.info_addr ≠ 0) :
    kmalloc a k = (a.info_addr,
      ⟨k.mmap_device_mutex, Function.update k.infos a.info_addr (.live a.info_garbage),
        k.pages⟩) := by
  unfold kmalloc; rw [if_neg hi]

theorem get_zeroed_page_ok (cfg : Config) (a : Alloc) (k : Kernel) (hp : a.page_addr ≠ 0) :
    get_zeroed_page cfg a k = (a.page_addr,
      ⟨k.mmap_device_mutex, k.infos,
        Function.update k.pages a.page_addr ⟨1, List.replicate cfg.PAGE_SIZE 0⟩⟩) := by
  unfold get_zeroed_page; rw [if_neg hp]

theorem deref_live (k : Kernel) (p : Nat) (info : mmap_info) (hp : p ≠ 0)
    (h : k.infos p = .live info) : deref k p = .ok info := by
  unfold deref; rw [if_neg hp, h]

theorem memcpy_ok (k : Kernel) (dst off : Nat) (src : List Nat) (n : Nat) (c : Nat)
    (bytes : List Nat) (hd : dst ≠ 0) (hpg : k.pages dst = ⟨c, bytes⟩)
    (h1 : off + n ≤ bytes.length) (h2 : n ≤ src.length) :
    memcpy k dst off src n = .ok ⟨k.mmap_device_mutex, k.infos,
      Function.update k.pages dst ⟨c, bytes.take off ++ src.take n ++ bytes.drop (off + n)⟩⟩ := by
  unfold memcpy
  rw [if_neg hd, hpg, if_pos ⟨h1, h2⟩]

theorem open_ok (cfg : Config) (a : Alloc) (k : Kernel) (filp : file)
    (hm : k.mmap_device_mutex = false) (hi : a.info_addr ≠ 0) (hp : a.page_addr ≠ 0)
    (hlen : 32 + strlen (cstr filp.d_name) ≤ cfg.PAGE_SIZE) :
    mmapfop_open cfg a k filp =
      (.ok 0,
       ⟨true,
        Function.update k.infos a.info_addr (.live ⟨a.page_addr, a.info_garbage.reference⟩),
        Function.update k.pages a.page_addr ⟨1, payload cfg filp.d_name⟩⟩,
       ⟨filp.d_name, a.info_addr⟩) := by
  have h32 : 32 ≤ cfg.PAGE_SIZE := by omega
  have hg : 32 ≤ (cstr greeting).length := by decide
  have hs := strlen_le (cstr filp.d_name)
  have e1 : List.take 32 (greeting ++ List.replicate (cfg.PAGE_SIZE - 32) 0) = greeting :=
    List.take_left' greeting_length
  have e2 : List.drop (32 + strlen (cstr filp.d_name))
      (greeting ++ List.replicate (cfg.PAGE_SIZE - 32) 0) =
      List.replicate (cfg.PAGE_SIZE - 32 - strlen (cstr filp.d_name)) 0 := by
    have : 32 + strlen (cstr filp.d_name) = greeting.length + strlen (cstr filp.d_name) := by
      rw [greeting_length]
    rw [this, List.drop_append, List.drop_replicate]
  unfold mmapfop_open
  rw [hm, if_neg (by simp)]
  dsimp only
  rw [kmalloc_ok _ _ hi]
  dsimp only
  rw [get_zeroed_page_ok _ _ _ hp]
  dsimp only
  rw [deref_live _ _ a.info_garbage hi (by simp)]
  dsimp only
  rw [memcpy_ok _ _ 0 _ 32 1 (List.replicate cfg.PAGE_SIZE 0) hp (by simp [store])
    (by simpa using h32) hg]
  dsimp only
  rw [memcpy_ok _ _ 32 _ _ 1 (greeting ++ List.replicate (cfg.PAGE_SIZE - 32) 0) hp
    (by simp [store, take_greeting]) (by simp [greeting_length]; omega) hs]
  simp [store, e1, e2, payload]

theorem kmalloc_null (a : Alloc) (k : Kernel) (hi : a.info_addr = 0) : kmalloc a k = (0, k) := by
  unfold kmalloc; rw [if_pos hi]

theorem get_zeroed_page_null (cfg : Config) (a : Alloc) (k : Kernel) (hp : a.page_addr = 0) :
    get_zeroed_page cfg a k = (0, k) := by
  unfold get_zeroed_page; rw [if_pos hp]

theorem deref_null (k : Kernel) : deref k 0 = .error .nullDeref := by
  unfold deref; rw [if_pos rfl]

theorem memcpy_null (k : Kernel) (off : Nat) (src : List Nat) (n : Nat) :
    memcpy k 0 off src n = .error .nullDeref := by
  unfold memcpy; rw [if_pos rfl]

/-- With `kmalloc` failing, `mmapfop_open` stops at the store through the null
record pointer; the mutex is held and the page, if any, stays allocated. -/
theorem open_kmalloc_null (cfg : Config) (a : Alloc) (k : Kernel) (filp : file)
    (hm : k.mmap_device_mutex = false) (hi : a.info_addr = 0) :
    mmapfop_open cfg a k filp =
      (.fault .nullDeref, (get_zeroed_page cfg a ⟨true, k.infos, k.pages⟩).2, filp) := by
  unfold mmapfop_open
  rw [hm, if_neg (by simp)]
  dsimp only
  rw [kmalloc_null _ _ hi]
  dsimp only
  rw [deref_null]

/-- With `get_zeroed_page` failing, `mmapfop_open` stops at the first `memcpy`;
the mutex is held and the record stays allocated. -/
theorem open_page_null (cfg : Config) (a : Alloc) (k : Kernel) (filp : file)
    (hm : k.mmap_device_mutex = false) (hi : a.info_addr ≠ 0) (hp : a.page_addr = 0) :
    mmapfop_open cfg a k filp =
      (.fault .nullDeref,
        ⟨true, Function.update k.infos a.info_addr (.live ⟨0, a.info_garbage.reference⟩),
          k.pages⟩, filp) := by
  unfold mmapfop_open
  rw [hm, if_neg (by simp)]
  dsimp only
  rw [kmalloc_ok _ _ hi]
  dsimp only
  rw [get_zeroed_page_null _ _ _ hp]
  dsimp only
  rw [deref_live _ _ a.info_garbage hi (by simp)]
  dsimp only
  rw [memcpy_null]
  simp [store]

theorem open_too_long (cfg : Config) (a : Alloc) (k : Kernel) (filp : file)
    (hm : k.mmap_device_mutex = false) (hi : a.info_addr ≠ 0) (hp : a.page_addr ≠ 0)
    (hlen : ¬ 32 + strlen (cstr filp.d_name) ≤ cfg.PAGE_SIZE) :
    (mmapfop_open cfg a k filp).1 = .fault .outOfBounds := by
  have hg : 32 ≤ (cstr greeting).length := by decide
  unfold mmapfop_open
  rw [hm, if_neg (by simp)]
  dsimp only
  rw [kmalloc_ok _ _ hi]
  dsimp only
  rw [get_zeroed_page_ok _ _ _ hp]
  dsimp only
  rw [deref_live _ _ a.info_garbage hi (by simp)]
  dsimp only
  by_cases h32 : 32 ≤ cfg.PAGE_SIZE
  · rw [memcpy_ok _ _ 0 _ 32 1 (List.replicate cfg.PAGE_SIZE 0) hp (by simp [store])
      (by simpa using h32) hg]
    dsimp only
    have : memcpy
        ⟨true, Function.update k.infos a.info_addr (.live ⟨a.page_addr, a.info_garbage.reference⟩),
          Function.update k.pages a.page_addr ⟨1, greeting ++ List.replicate (cfg.PAGE_SIZE - 32) 0⟩⟩
        a.page_addr 32 (cstr filp.d_name) (strlen (cstr filp.d_name)) = .error .outOfBounds := by
      unfold memcpy
      rw [if_neg hp, if_neg]
      simp [greeting_length]
      omega
    simp [store, take_greeting] at this ⊢
    rw [this]
  · have : memcpy (store
        ⟨true, Function.update k.infos a.info_addr (.live a.info_garbage),
          Function.update k.pages a.page_addr ⟨1, List.replicate cfg.PAGE_SIZE 0⟩⟩
        a.info_addr ⟨a.page_addr, a.info_garbage.reference⟩)
        a.page_addr 0 (cstr greeting) 32 = .error .outOfBounds := by
      unfold memcpy
      rw [if_neg hp, if_neg]
      simp [store]
      omega
    rw [this]

/-- A call of `mmapfop_open` that returns 0 found the mutex free, got both
allocations and had room for the name. -/
theorem open_ok_inv (cfg : Config) (a : Alloc) (k : Kernel) (filp : file)
    (h : (mmapfop_open cfg a k filp).1 = .ok 0) :
    k.mmap_device_mutex = false ∧ a.info_addr ≠ 0 ∧ a.page_addr ≠ 0 ∧
      32 + strlen (cstr filp.d_name) ≤ cfg.PAGE_SIZE := by
  have hm : k.mmap_device_mutex = false := by
    by_contra hc
    rw [open_busy cfg a k filp (by simpa using hc)] at h
    simp [EBUSY] at h
  have hi : a.info_addr ≠ 0 := by
    intro hc
    rw [open_kmalloc_null cfg a k filp hm hc] at h
    simp at h
  have hp : a.page_addr ≠ 0 := by
    intro hc
    rw [open_page_null cfg a k filp hm hi hc] at h
    simp at h
  refine ⟨hm, hi, hp, ?_⟩
  by_contra hc
  rw [open_too_long cfg a k filp hm hi hp hc] at h
  simp at h

/-- With the mutex free, `mmapfop_open` does not return `-EBUSY`. -/
theorem open_free_not_busy (cfg : Config) (a : Alloc) (k : Kernel) (filp : file)
    (hm : k.mmap_device_mutex = false) : (mmapfop_open cfg a k filp).1 ≠ .ok (-EBUSY) := by
  by_cases hi : a.info_addr = 0
  · rw [open_kmalloc_null cfg a k filp hm hi]; simp
  · by_cases hp : a.page_addr = 0
    · rw [open_page_null cfg a k filp hm hi hp]; simp
    · by_cases hlen : 32 + strlen (cstr filp.d_name) ≤ cfg.PAGE_SIZE
      · rw [open_ok cfg a k filp hm hi hp hlen]; simp [EBUSY]
      · rw [open_too_long cfg a k filp hm hi hp hlen]; simp

/-! ## Facts about call sequences -/

theorem run_append (cfg : Config) (xs ys : List Call) :
    ∀ k : Kernel, run cfg k (xs ++ ys) = run cfg k xs ++ run cfg (runState cfg k xs) ys := by
  induction xs with
  | nil => intro k; rfl
  | cons x xs ih => intro k; simp [run, runState, ih]

theorem run_length (cfg : Config) (xs : List Call) :
    ∀ k : Kernel, (run cfg k xs).length = xs.length := by
  induction xs with
  | nil => intro k; rfl
  | cons x xs ih => intro k; simp [run, ih]

/-- While the mutex is held, a run of `mmapfop_open` calls has no success. -/
theorem opens_while_held (cfg : Config) (seg : List Call) :
    ∀ k : Kernel, (∀ c ∈ seg, Call.isOpen c = true) → k.mmap_device_mutex = true →
      (run cfg k seg).count (.ok 0) = 0 := by
  induction seg with
  | nil => intro k _ _; rfl
  | cons c cs ih =>
    intro k hall hk
    cases c with
    | do_close f => exact absurd (hall _ (List.mem_cons_self _ _)) (by simp [Call.isOpen])
    | do_open a f =>
      have hrest : ∀ c ∈ cs, Call.isOpen c = true := fun c hc => hall c (List.mem_cons_of_mem _ hc)
      have hb := open_busy cfg a k f hk
      simp only [run, step, hb]
      rw [List.count_cons_of_ne (by simp [EBUSY])]
      exact ih k hrest hk

/-- A run of `mmapfop_open` calls has at most one success. -/
theorem opens_at_most_one (cfg : Config) (seg : List Call) :
    ∀ k : Kernel, (∀ c ∈ seg, Call.isOpen c = true) → (run cfg k seg).count (.ok 0) ≤ 1 := by
  induction seg with
  | nil => intro k _; simp [run]
  | cons c cs ih =>
    intro k hall
    cases c with
    | do_close f => exact absurd (hall _ (List.mem_cons_self _ _)) (by simp [Call.isOpen])
    | do_open a f =>
      have hrest : ∀ c ∈ cs, Call.isOpen c = true := fun c hc => hall c (List.mem_cons_of_mem _ hc)
      have hheld := open_holds_mutex cfg a k f
      have h0 := opens_while_held cfg cs (mmapfop_open cfg a k f).2.1 hrest hheld
      simp only [run, step]
      rw [List.count_cons, h0]
      split_ifs <;> omega

/-! ## Exclusive admission -/

/-- Claim C1. While the device mutex is held, `mmapfop_open` returns `-EBUSY` and
leaves the kernel state (mutex, heap, page frames) and the file untouched; and in
every sequence of open/close calls, any stretch of calls without a close has at
most one `mmapfop_open` that returns 0. -/
theorem mmapfop_open_busy_exclusive (cfg : Config) (a : Alloc) (k : Kernel) (filp : file)
    (hheld : k.mmap_device_mutex = true) :
    mmapfop_open cfg a k filp = (.ok (-EBUSY), k, filp) ∧
    ∀ (k0 : Kernel) (pre seg post : List Call), (∀ c ∈ seg, Call.isOpen c = true) →
      (((run cfg k0 (pre ++ seg ++ post)).drop pre.length).take seg.length).count (.ok 0) ≤ 1 := by
  refine ⟨open_busy cfg a k filp hheld, ?_⟩
  intro k0 pre seg post hall
  have e : ((run cfg k0 (pre ++ seg ++ post)).drop pre.length).take seg.length =
      run cfg (runState cfg k0 pre) seg := by
    rw [List.append_assoc, run_append, List.drop_left' (run_length cfg pre k0), run_append,
      List.take_left' (run_length cfg seg _)]
  rw [e]
  exact opens_at_most_one cfg seg _ hall

/-- Witness for C1: a second open on the busy device of `kernelSession`. -/
theorem mmapfop_open_busy_exclusive_witness :
    kernelSession.mmap_device_mutex = true ∧
    mmapfop_open cfg4k allocOk kernelSession fileFoo = (.ok (-EBUSY), kernelSession, fileFoo) ∧
    ∀ (k0 : Kernel) (pre seg post : List Call), (∀ c ∈ seg, Call.isOpen c = true) →
      (((run cfg4k k0 (pre ++ seg ++ post)).drop pre.length).take seg.length).count (.ok 0) ≤ 1 :=
  ⟨rfl, mmapfop_open_busy_exclusive cfg4k allocOk kernelSession fileFoo rfl⟩

/-! ## Close and reopen -/

theorem close_ok (k : Kernel) (filp : file) (d : Nat) (n : Int) (c : Nat) (bytes : List Nat)
    (hp0 : filp.private_data ≠ 0) (hinfo : k.infos filp.private_data = .live ⟨d, n⟩)
    (hd : d ≠ 0) (hpage : k.pages d = ⟨c + 1, bytes⟩) :
    mmapfop_close k filp =
      (.ok 0,
       ⟨false, Function.update k.infos filp.private_data (.freed ⟨d, n⟩),
        Function.update k.pages d ⟨c, bytes⟩⟩,
       ⟨filp.d_name, 0⟩) := by
  unfold mmapfop_close
  rw [deref_live k _ ⟨d, n⟩ hp0 hinfo]
  dsimp only
  have hf : free_page k d = .ok ⟨k.mmap_device_mutex, k.infos,
      Function.update k.pages d ⟨c, bytes⟩⟩ := by
    unfold free_page
    rw [if_neg hd, hpage, if_neg (by simp)]
    simp
  rw [hf]
  simp [kfree, hp0, hinfo]

/-- Claim C2. On an open session (mutex held, the file pointing to a live record
whose page is in use), whatever the mapping reference count `n`, `mmapfop_close`
returns 0, drops the session's use of the page (the frame is back with the
allocator when no other use is left), frees the record (whose bytes stay as
they were), clears the file's private data and leaves the mutex free; an
`mmapfop_open` issued right after
never returns `-EBUSY`, and returns 0 when its allocations succeed and the name
fits. -/
theorem mmapfop_close_then_open (cfg : Config) (k : Kernel) (filp : file) (d : Nat) (n : Int)
    (c : Nat) (bytes : List Nat)
    (hheld : k.mmap_device_mutex = true)
    (hp0 : filp.private_data ≠ 0) (hinfo : k.infos filp.private_data = .live ⟨d, n⟩)
    (hd : d ≠ 0) (hpage : k.pages d = ⟨c + 1, bytes⟩) :
    (mmapfop_close k filp).1 = .ok 0 ∧
    (mmapfop_close k filp).2.1.mmap_device_mutex = false ∧
    (mmapfop_close k filp).2.1.infos filp.private_data = .freed ⟨d, n⟩ ∧
    (mmapfop_close k filp).2.1.pages d = ⟨c, bytes⟩ ∧
    (mmapfop_close k filp).2.2.private_data = 0 ∧
    (∀ (a : Alloc) (filp2 : file),
      (mmapfop_open cfg a (mmapfop_close k filp).2.1 filp2).1 ≠ .ok (-EBUSY)) ∧
    (∀ (a : Alloc) (filp2 : file), a.info_addr ≠ 0 → a.page_addr ≠ 0 →
      32 + strlen (cstr filp2.d_name) ≤ cfg.PAGE_SIZE →
      (mmapfop_open cfg a (mmapfop_close k filp).2.1 filp2).1 = .ok 0) := by
  have _ := hheld
  rw [close_ok k filp d n c bytes hp0 hinfo hd hpage]
  refine ⟨rfl, rfl, by simp, by simp, rfl, ?_, ?_⟩
  · intro a filp2
    exact open_free_not_busy cfg a _ filp2 rfl
  · intro a filp2 hi hp hlen
    rw [open_ok cfg a _ filp2 rfl hi hp hlen]

/-- Witness for C2: closing `kernelSession`, which has two mappings counted. -/
theorem mmapfop_close_then_open_witness :
    (mmapfop_close kernelSession fileOpened).1 = .ok 0 ∧
    (mmapfop_close kernelSession fileOpened).2.1.mmap_device_mutex = false ∧
    (mmapfop_close kernelSession fileOpened).2.1.infos fileOpened.private_data =
      .freed ⟨4096, 2⟩ ∧
    (mmapfop_close kernelSession fileOpened).2.1.pages 4096 =
      ⟨0, payload cfg4k [102, 111, 111]⟩ ∧
    (mmapfop_close kernelSession fileOpened).2.2.private_data = 0 ∧
    (∀ (a : Alloc) (filp2 : file),
      (mmapfop_open cfg4k a (mmapfop_close kernelSession fileOpened).2.1 filp2).1 ≠
        .ok (-EBUSY)) ∧
    (∀ (a : Alloc) (filp2 : file), a.info_addr ≠ 0 → a.page_addr ≠ 0 →
      32 + strlen (cstr filp2.d_name) ≤ cfg4k.PAGE_SIZE →
      (mmapfop_open cfg4k a (mmapfop_close kernelSession fileOpened).2.1 filp2).1 = .ok 0) :=
  mmapfop_close_then_open cfg4k kernelSession fileOpened 4096 2 0 (payload cfg4k [102, 111, 111])
    rfl (by decide) rfl (by decide) rfl

/-! ## Initial payload -/

/-- Claim C3. For a name without NUL byte whose length `L` satisfies
`32 + L ≤ PAGE_SIZE`, `mmapfop_open` returns 0 exactly when the mutex is free and
both allocations succeed, and then the file points to the new record, the record
points to the new page, and the page has `PAGE_SIZE` bytes: the 32 bytes of the
greeting, the `L` bytes of the name, and `PAGE_SIZE - 32 - L` zero bytes. -/
theorem mmapfop_open_payload (cfg : Config) (a : Alloc) (k : Kernel) (filp : file)
    (hnul : 0 ∉ filp.d_name) (hlen : 32 + filp.d_name.length ≤ cfg.PAGE_SIZE) :
    ((mmapfop_open cfg a k filp).1 = .ok 0 ↔
      (k.mmap_device_mutex = false ∧ a.info_addr ≠ 0 ∧ a.page_addr ≠ 0)) ∧
    ((mmapfop_open cfg a k filp).1 = .ok 0 →
      (mmapfop_open cfg a k filp).2.2.private_data = a.info_addr ∧
      (mmapfop_open cfg a k filp).2.1.infos a.info_addr =
        .live ⟨a.page_addr, a.info_garbage.reference⟩ ∧
      ((mmapfop_open cfg a k filp).2.1.pages a.page_addr).bytes =
        greeting ++ filp.d_name ++
          List.replicate (cfg.PAGE_SIZE - 32 - filp.d_name.length) 0 ∧
      ((mmapfop_open cfg a k filp).2.1.pages a.page_addr).bytes.length = cfg.PAGE_SIZE ∧
      greeting.length = 32) := by
  have hs : strlen (cstr filp.d_name) = filp.d_name.length := strlen_cstr _ hnul
  have hlen2 : 32 + strlen (cstr filp.d_name) ≤ cfg.PAGE_SIZE := by rw [hs]; exact hlen
  have key : ∀ (hm : k.mmap_device_mutex = false) (hi : a.info_addr ≠ 0) (hp : a.page_addr ≠ 0),
      (mmapfop_open cfg a k filp).2.2.private_data = a.info_addr ∧
      (mmapfop_open cfg a k filp).2.1.infos a.info_addr =
        .live ⟨a.page_addr, a.info_garbage.reference⟩ ∧
      ((mmapfop_open cfg a k filp).2.1.pages a.page_addr).bytes =
        greeting ++ filp.d_name ++
          List.replicate (cfg.PAGE_SIZE - 32 - filp.d_name.length) 0 ∧
      ((mmapfop_open cfg a k filp).2.1.pages a.page_addr).bytes.length = cfg.PAGE_SIZE ∧
      greeting.length = 32 := by
    intro hm hi hp
    rw [open_ok cfg a k filp hm hi hp hlen2]
    have hb : payload cfg filp.d_name = greeting ++ filp.d_name ++
        List.replicate (cfg.PAGE_SIZE - 32 - filp.d_name.length) 0 := by
      unfold payload
      rw [hs, take_cstr]
    refine ⟨rfl, by simp, by simp [hb], ?_, greeting_length⟩
    simp only [Function.update_same, hb, List.length_append, List.length_replicate,
      greeting_length]
    omega
  constructor
  · constructor
    · intro h
      have hinv := open_ok_inv cfg a k filp h
      exact ⟨hinv.1, hinv.2.1, hinv.2.2.1⟩
    · rintro ⟨hm, hi, hp⟩
      rw [open_ok cfg a k filp hm hi hp hlen2]
  · intro h
    have hinv := open_ok_inv cfg a k filp h
    exact key hinv.1 hinv.2.1 hinv.2.2.1

/-- Witness for C3: the file named `foo` (bytes 102, 111, 111) opened on the
idle device with 4096-byte pages. -/
theorem mmapfop_open_payload_witness :
    (mmapfop_open cfg4k allocOk kernelIdle fileFoo).1 = .ok 0 ∧
    ((mmapfop_open cfg4k allocOk kernelIdle fileFoo).2.1.pages allocOk.page_addr).bytes =
      greeting ++ fileFoo.d_name ++
        List.replicate (cfg4k.PAGE_SIZE - 32 - fileFoo.d_name.length) 0 ∧
    ((mmapfop_open cfg4k allocOk kernelIdle fileFoo).2.1.pages allocOk.page_addr).bytes.length =
      cfg4k.PAGE_SIZE ∧
    fileFoo.d_name = [102, 111, 111] ∧ cfg4k.PAGE_SIZE - 32 - fileFoo.d_name.length = 4061 := by
  have h := mmapfop_open_payload cfg4k allocOk kernelIdle fileFoo (by decide)
    (by simp [cfg4k, fileFoo])
  have hok := h.1.2 ⟨rfl, by decide, by decide⟩
  exact ⟨hok, (h.2 hok).2.2.1, (h.2 hok).2.2.2.1, rfl, rfl⟩

/-! ## Mapping reference count -/

theorem wrap32_id (x : Int) (h1 : -2147483648 ≤ x) (h2 : x < 2147483648) : wrap32 x = x := by
  unfold wrap32
  omega

theorem mmap_open_live (k : Kernel) (vma : vm_area_struct) (d : Nat) (n : Int)
    (hp0 : vma.vm_private_data ≠ 0) (hinfo : k.infos vma.vm_private_data = .live ⟨d, n⟩) :
    mmap_open k vma = (none, ⟨k.mmap_device_mutex,
      Function.update k.infos vma.vm_private_data (.live ⟨d, wrap32 (n + 1)⟩), k.pages⟩) := by
  unfold mmap_open
  rw [deref_live k _ ⟨d, n⟩ hp0 hinfo]
  simp [store, hinfo]

theorem mmap_close_live (k : Kernel) (vma : vm_area_struct) (d : Nat) (n : Int)
    (hp0 : vma.vm_private_data ≠ 0) (hinfo : k.infos vma.vm_private_data = .live ⟨d, n⟩) :
    mmap_close k vma = (none, ⟨k.mmap_device_mutex,
      Function.update k.infos vma.vm_private_data (.live ⟨d, wrap32 (n - 1)⟩), k.pages⟩) := by
  unfold mmap_close
  rw [deref_live k _ ⟨d, n⟩ hp0 hinfo]
  simp [store, hinfo]

/-- The count after a sequence of `mmap_open` / `mmap_close` calls in which no
prefix drives it below zero and which is too short to overflow. -/
theorem vmaRun_reference (vma : vm_area_struct) (d : Nat) (hp0 : vma.vm_private_data ≠ 0)
    (ops : List VmaCall) :
    ∀ (k : Kernel) (r : Int), k.infos vma.vm_private_data = .live ⟨d, r⟩ →
      r + ops.length < 2147483648 →
      (∀ j, j ≤ ops.length →
        0 ≤ r + ((ops.take j).count .vm_open : Int) - ((ops.take j).count .vm_close : Int)) →
      (vmaRun k vma ops).infos vma.vm_private_data =
        .live ⟨d, r + (ops.count .vm_open : Int) - (ops.count .vm_close : Int)⟩ := by
  induction ops with
  | nil => intro k r hinfo _ _; simpa [vmaRun] using hinfo
  | cons c cs ih =>
    intro k r hinfo hsmall hpre
    have h0 := hpre 0 (Nat.zero_le _)
    have h1 := hpre 1 (by simp)
    simp only [List.take_zero, List.count_nil, Nat.cast_zero] at h0
    simp only [List.length_cons, Nat.cast_add, Nat.cast_one] at hsmall
    cases c with
    | vm_open =>
      have hw : wrap32 (r + 1) = r + 1 := wrap32_id _ (by omega) (by omega)
      have hstep : (vmaStep k vma .vm_open).infos vma.vm_private_data = .live ⟨d, r + 1⟩ := by
        simp [vmaStep, mmap_open_live k vma d r hp0 hinfo, hw]
      have := ih (vmaStep k vma .vm_open) (r + 1) hstep (by omega) (by
        intro j hj
        have := hpre (j + 1) (by simpa using hj)
        simp only [List.take_succ_cons, List.count_cons_self, Nat.cast_add, Nat.cast_one] at this
        rw [List.count_cons_of_ne (by decide)] at this
        omega)
      simp only [vmaRun, this, List.count_cons_self, Nat.cast_add, Nat.cast_one]
      rw [List.count_cons_of_ne (by decide)]
      congr 2
      omega
    | vm_close =>
      simp only [List.take_succ_cons, List.take_zero, List.count_cons_self, List.count_nil,
        Nat.cast_add, Nat.cast_one, Nat.cast_zero] at h1
      rw [List.count_cons_of_ne (by decide)] at h1
      simp only [List.count_nil, Nat.cast_zero] at h1
      have hw : wrap32 (r - 1) = r - 1 := wrap32_id _ (by omega) (by omega)
      have hstep : (vmaStep k vma .vm_close).infos vma.vm_private_data = .live ⟨d, r - 1⟩ := by
        simp [vmaStep, mmap_close_live k vma d r hp0 hinfo, hw]
      have := ih (vmaStep k vma .vm_close) (r - 1) hstep (by omega) (by
        intro j hj
        have := hpre (j + 1) (by simpa using hj)
        simp only [List.take_succ_cons, List.count_cons_self, Nat.cast_add, Nat.cast_one] at this
        rw [List.count_cons_of_ne (by decide)] at this
        omega)
      simp only [vmaRun, this, List.count_cons_self, Nat.cast_add, Nat.cast_one]
      rw [List.count_cons_of_ne (by decide)]
      congr 2
      omega

/-- Claim C4, as stated, fails: on an open session whose count is 0, one
`mmap_close` leaves the count at -1. -/
theorem refcount_nonneg_counterexample :
    kernelZeroRef.mmap_device_mutex = true ∧
    kernelZeroRef.infos vmaMapped.vm_private_data = .live ⟨4096, 0⟩ ∧
    referenceAt (vmaRun kernelZeroRef vmaMapped [.vm_close]) vmaMapped.vm_private_data =
      some (-1) := by
  refine ⟨rfl, rfl, ?_⟩
  decide

/-- Claim C4, amended. On an open session whose count `r` is not negative, for
every sequence of `mmap_open` / `mmap_close` calls in which no prefix has more
than `r` more closes than opens, and short enough for the 32-bit counter not to
overflow, the count after every step is `r` plus the opens minus the closes so
far, which is not negative. -/
theorem refcount_nonneg_of_balanced (k : Kernel) (vma : vm_area_struct) (d : Nat) (r : Int)
    (ops : List VmaCall)
    (hp0 : vma.vm_private_data ≠ 0) (hinfo : k.infos vma.vm_private_data = .live ⟨d, r⟩)
    (hr : 0 ≤ r) (hsmall : r + ops.length < 2147483648)
    (hbal : ∀ j, j ≤ ops.length →
      ((ops.take j).count .vm_close : Int) ≤ r + ((ops.take j).count .vm_open : Int)) :
    ∀ j, j ≤ ops.length →
      referenceAt (vmaRun k vma (ops.take j)) vma.vm_private_data =
        some (r + ((ops.take j).count .vm_open : Int) - ((ops.take j).count .vm_close : Int)) ∧
      0 ≤ r + ((ops.take j).count .vm_open : Int) - ((ops.take j).count .vm_close : Int) := by
  have _ := hr
  intro j hj
  have hlen : (ops.take j).length = j := by simp [hj]
  have hrun := vmaRun_reference vma d hp0 (ops.take j) k r hinfo
    (by rw [hlen]; have : (j : Int) ≤ ops.length := by exact_mod_cast hj
        omega)
    (by
      intro i hi
      rw [hlen] at hi
      rw [List.take_take, Nat.min_eq_left hi]
      have := hbal i (le_trans hi hj)
      omega)
  refine ⟨?_, ?_⟩
  · simp [referenceAt, hrun]
  · have := hbal j hj
    omega

/-- Witness for C4 amended: two opens then two closes on a session at count 0,
looked at after the third call. -/
theorem refcount_nonneg_of_balanced_witness :
    referenceAt (vmaRun kernelZeroRef vmaMapped (opsBalanced.take 3)) vmaMapped.vm_private_data =
      some (0 + ((opsBalanced.take 3).count .vm_open : Int) -
        ((opsBalanced.take 3).count .vm_close : Int)) ∧
    0 ≤ 0 + ((opsBalanced.take 3).count .vm_open : Int) -
      ((opsBalanced.take 3).count .vm_close : Int) :=
  refcount_nonneg_of_balanced kernelZeroRef vmaMapped 4096 0 opsBalanced (by decide) rfl
    (by decide) (by decide) (by decide) 3 (by decide)

/-- Claim C5 on the code: after a successful `mmapfop_open` for which `kmalloc`
returned a block whose `reference` bytes hold 7, the count is 7, not 0; it is 8
after `op_mmap`, 9 after the duplicating `mmap_open`, 8 and then 7 after the two
`mmap_close` calls. -/
theorem fresh_session_refcount_eval :
    scenarioOpen.1 = .ok 0 ∧ scenarioOpen.2.2.private_data = 64 ∧
    referenceAt scenarioOpen.2.1 64 = some 7 ∧
    scenarioMmap.1 = .ok 0 ∧ referenceAt scenarioMmap.2.1 64 = some 8 ∧
    scenarioDup.1 = none ∧ referenceAt scenarioDup.2 64 = some 9 ∧
    scenarioUnmap1.1 = none ∧ referenceAt scenarioUnmap1.2 64 = some 8 ∧
    scenarioUnmap2.1 = none ∧ referenceAt scenarioUnmap2.2 64 = some 7 := by
  have h : scenarioOpen = _ :=
    open_ok cfg4k allocOk kernelIdle fileFoo rfl (by decide) (by decide)
      (by rw [strlen_cstr _ (by decide)]; simp [fileFoo, cfg4k])
  simp [scenarioUnmap2, scenarioUnmap1, scenarioDup, scenarioMmap, h, op_mmap, mmap_open,
    mmap_close, deref, store, referenceAt, wrap32, allocOk, vmaRequest]

/-! ## Allocation failure in `mmapfop_open` -/

/-- Claim C6 on the code: with the mutex free and `kmalloc` returning null,
`mmapfop_open` stops on a null dereference, with the mutex held and the page
obtained from `get_zeroed_page` still in use; with `get_zeroed_page` returning
null it stops on a null dereference in `memcpy`, with the mutex held and the
record still allocated. No `-ENOMEM` is returned and nothing is undone. -/
theorem mmapfop_open_alloc_failure_eval :
    kernelIdle.mmap_device_mutex = false ∧
    (mmapfop_open cfg4k allocNoInfo kernelIdle fileFoo).1 = .fault .nullDeref ∧
    (mmapfop_open cfg4k allocNoInfo kernelIdle fileFoo).2.1.mmap_device_mutex = true ∧
    ((mmapfop_open cfg4k allocNoInfo kernelIdle fileFoo).2.1.pages 4096).count = 1 ∧
    (mmapfop_open cfg4k allocNoPage kernelIdle fileFoo).1 = .fault .nullDeref ∧
    (mmapfop_open cfg4k allocNoPage kernelIdle fileFoo).2.1.mmap_device_mutex = true ∧
    (mmapfop_open cfg4k allocNoPage kernelIdle fileFoo).2.1.infos 64 = .live ⟨0, 0⟩ := by
  decide

/-! ## Mapping requests -/

theorem op_mmap_live (cfg : Config) (k : Kernel) (filp : file) (vma : vm_area_struct)
    (d : Nat) (n : Int) (hp0 : filp.private_data ≠ 0)
    (hinfo : k.infos filp.private_data = .live ⟨d, n⟩) :
    op_mmap cfg k filp vma =
      (.ok 0,
       ⟨k.mmap_device_mutex,
        Function.update k.infos filp.private_data (.live ⟨d, wrap32 (n + 1)⟩), k.pages⟩,
       ⟨vma.vm_start, vma.vm_end, vma.vm_pgoff, vma.vm_flags ||| cfg.VM_RESERVED,
        some .mmap_vm_ops, filp.private_data⟩) := by
  unfold op_mmap
  dsimp only
  rw [mmap_open_live k _ d n hp0 hinfo]

/-- Claim C8, as stated, fails: on an open session, a request for two pages at
page offset 1 is accepted by `op_mmap`, which returns 0, installs the operation
table and the private data and counts the mapping. -/
theorem op_mmap_rejects_counterexample :
    vmaBadRequest.vm_pgoff = 1 ∧
    vmaBadRequest.vm_end - vmaBadRequest.vm_start = 2 * cfg4k.PAGE_SIZE ∧
    kernelSession.mmap_device_mutex = true ∧
    kernelSession.infos fileOpened.private_data = .live ⟨4096, 2⟩ ∧
    (op_mmap cfg4k kernelSession fileOpened vmaBadRequest).1 = .ok 0 ∧
    (op_mmap cfg4k kernelSession fileOpened vmaBadRequest).2.2.vm_ops = some .mmap_vm_ops ∧
    (op_mmap cfg4k kernelSession fileOpened vmaBadRequest).2.2.vm_private_data = 64 ∧
    referenceAt (op_mmap cfg4k kernelSession fileOpened vmaBadRequest).2.1 64 = some 3 := by
  decide

/-- Claim C8, amended. On an open session `op_mmap` accepts every mapping
request, whatever its offset and length: it returns 0, installs `mmap_vm_ops`,
adds `VM_RESERVED` to the flags, points the mapping at the session record and
increments the mapping reference count by one (as a 32-bit integer); it changes
nothing else. -/
theorem op_mmap_accepts_all (cfg : Config) (k : Kernel) (filp : file) (vma : vm_area_struct)
    (d : Nat) (n : Int) (hp0 : filp.private_data ≠ 0)
    (hinfo : k.infos filp.private_data = .live ⟨d, n⟩) :
    (op_mmap cfg k filp vma).1 = .ok 0 ∧
    (op_mmap cfg k filp vma).2.2 =
      ⟨vma.vm_start, vma.vm_end, vma.vm_pgoff, vma.vm_flags ||| cfg.VM_RESERVED,
        some .mmap_vm_ops, filp.private_data⟩ ∧
    (op_mmap cfg k filp vma).2.1.infos filp.private_data = .live ⟨d, wrap32 (n + 1)⟩ ∧
    (∀ q, q ≠ filp.private_data → (op_mmap cfg k filp vma).2.1.infos q = k.infos q) ∧
    (op_mmap cfg k filp vma).2.1.pages = k.pages ∧
    (op_mmap cfg k filp vma).2.1.mmap_device_mutex = k.mmap_device_mutex := by
  rw [op_mmap_live cfg k filp vma d n hp0 hinfo]
  refine ⟨rfl, rfl, by simp, ?_, rfl, rfl⟩
  intro q hq
  simp [Function.update_noteq hq]

/-- Witness for C8 amended: the two-page request at offset 1 on `kernelSession`. -/
theorem op_mmap_accepts_all_witness :
    (op_mmap cfg4k kernelSession fileOpened vmaBadRequest).1 = .ok 0 ∧
    (op_mmap cfg4k kernelSession fileOpened vmaBadRequest).2.2 =
      ⟨vmaBadRequest.vm_start, vmaBadRequest.vm_end, vmaBadRequest.vm_pgoff,
        vmaBadRequest.vm_flags ||| cfg4k.VM_RESERVED, some .mmap_vm_ops,
        fileOpened.private_data⟩ ∧
    (op_mmap cfg4k kernelSession fileOpened vmaBadRequest).2.1.infos fileOpened.private_data =
      .live ⟨4096, wrap32 (2 + 1)⟩ ∧
    (∀ q, q ≠ fileOpened.private_data →
      (op_mmap cfg4k kernelSession fileOpened vmaBadRequest).2.1.infos q =
        kernelSession.infos q) ∧
    (op_mmap cfg4k kernelSession fileOpened vmaBadRequest).2.1.pages = kernelSession.pages ∧
    (op_mmap cfg4k kernelSession fileOpened vmaBadRequest).2.1.mmap_device_mutex =
      kernelSession.mmap_device_mutex :=
  op_mmap_accepts_all cfg4k kernelSession fileOpened vmaBadRequest 4096 2 (by decide) rfl

/-! ## Fault handling -/

theorem mmap_fault_live (k : Kernel) (vma : vm_area_struct) (vmf : vm_fault) (d : Nat) (n : Int)
    (hp0 : vma.vm_private_data ≠ 0) (hinfo : k.infos vma.vm_private_data = .live ⟨d, n⟩)
    (hd : d ≠ 0) :
    mmap_fault k vma vmf = (.ok 0, get_page k d, ⟨some d⟩) := by
  unfold mmap_fault
  rw [deref_live k _ ⟨d, n⟩ hp0 hinfo]
  dsimp only
  rw [if_neg hd]
  rfl

theorem mmap_fault_no_data (k : Kernel) (vma : vm_area_struct) (vmf : vm_fault) (n : Int)
    (hp0 : vma.vm_private_data ≠ 0) (hinfo : k.infos vma.vm_private_data = .live ⟨0, n⟩) :
    mmap_fault k vma vmf = (.ok 0, k, vmf) := by
  unfold mmap_fault
  rw [deref_live k _ ⟨0, n⟩ hp0 hinfo]
  rfl

/-- Claim C7 on the code: `kernelSession` has two mappings counted; after
`mmapfop_close` the record at 64 and the page at 4096 are released, and
`vmaMapped` still points at the record. Each later `mmap_fault` on that mapping
reads `info->data` through the released record, finds the stale pointer 4096
there (so the `No data` branch is not taken), takes a use of the released page
with `get_page`, binds it into the descriptor and returns 0. -/
theorem fault_after_close_eval :
    referenceAt kernelSession fileOpened.private_data = some 2 ∧
    vmaMapped.vm_private_data = fileOpened.private_data ∧
    (mmapfop_close kernelSession fileOpened).1 = .ok 0 ∧
    (mmapfop_close kernelSession fileOpened).2.1.infos 64 = .freed ⟨4096, 2⟩ ∧
    ((mmapfop_close kernelSession fileOpened).2.1.pages 4096).count = 0 ∧
    (mmap_fault (mmapfop_close kernelSession fileOpened).2.1 vmaMapped ⟨none⟩).1 = .ok 0 ∧
    (mmap_fault (mmapfop_close kernelSession fileOpened).2.1 vmaMapped ⟨none⟩).2.2.page =
      some 4096 ∧
    ((mmap_fault (mmapfop_close kernelSession fileOpened).2.1 vmaMapped ⟨none⟩).2.1.pages
      4096).count = 1 ∧
    (faultRun (mmapfop_close kernelSession fileOpened).2.1 vmaMapped [⟨none⟩, ⟨none⟩]).1 =
      [(.ok 0, ⟨some 4096⟩), (.ok 0, ⟨some 4096⟩)] ∧
    ((faultRun (mmapfop_close kernelSession fileOpened).2.1 vmaMapped [⟨none⟩, ⟨none⟩]).2.pages
      4096).count = 2 := by
  decide

theorem get_page_eq (k : Kernel) (d : Nat) :
    get_page k d = ⟨k.mmap_device_mutex, k.infos,
      Function.update k.pages d ⟨(k.pages d).count + 1, (k.pages d).bytes⟩⟩ := rfl

/-- Effect of consecutive faults on a mapping of a session that has a page. -/
theorem faultRun_live (vma : vm_area_struct) (d : Nat) (n : Int)
    (hp0 : vma.vm_private_data ≠ 0) (hd : d ≠ 0) (vmfs : List vm_fault) :
    ∀ k : Kernel, k.infos vma.vm_private_data = .live ⟨d, n⟩ →
      (faultRun k vma vmfs).1 = List.replicate vmfs.length (.ok 0, ⟨some d⟩) ∧
      (faultRun k vma vmfs).2 = ⟨k.mmap_device_mutex, k.infos,
        Function.update k.pages d ⟨(k.pages d).count + vmfs.length, (k.pages d).bytes⟩⟩ := by
  induction vmfs with
  | nil =>
    intro k _
    refine ⟨rfl, ?_⟩
    simp [faultRun]
  | cons vmf rest ih =>
    intro k hinfo
    have hstep := mmap_fault_live k vma vmf d n hp0 hinfo hd
    have hih := ih (get_page k d) (by rw [get_page_eq]; exact hinfo)
    have e1 : (faultRun k vma (vmf :: rest)).1 =
        (.ok 0, ⟨some d⟩) :: (faultRun (get_page k d) vma rest).1 := by
      simp only [faultRun, hstep]
    have e2 : (faultRun k vma (vmf :: rest)).2 = (faultRun (get_page k d) vma rest).2 := by
      simp only [faultRun, hstep]
    rw [e1, e2, hih.1, hih.2]
    refine ⟨rfl, ?_⟩
    rw [get_page_eq]
    simp only [Function.update_same, Function.update_idem, List.length_cons, Nat.add_assoc,
      Nat.add_comm 1]

/-- Claim C9. On a session whose record is live and whose `data` pointer is not
null, any number of consecutive `mmap_fault` calls on a mapping of the session
all return 0 and bind the same page, the page of `info->data`; the heap (data
pointer and mapping reference count included) and the mutex are unchanged, no
other page frame is touched, and the session page keeps its bytes while its use
count grows by one per fault. -/
theorem mmap_fault_idempotent (k : Kernel) (vma : vm_area_struct) (d : Nat) (n : Int)
    (vmfs : List vm_fault)
    (hp0 : vma.vm_private_data ≠ 0) (hinfo : k.infos vma.vm_private_data = .live ⟨d, n⟩)
    (hd : d ≠ 0) :
    (faultRun k vma vmfs).1 = List.replicate vmfs.length (.ok 0, ⟨some (virt_to_page d)⟩) ∧
    (faultRun k vma vmfs).2.infos = k.infos ∧
    (faultRun k vma vmfs).2.mmap_device_mutex = k.mmap_device_mutex ∧
    (∀ q, q ≠ d → (faultRun k vma vmfs).2.pages q = k.pages q) ∧
    ((faultRun k vma vmfs).2.pages d).bytes = (k.pages d).bytes ∧
    ((faultRun k vma vmfs).2.pages d).count = (k.pages d).count + vmfs.length := by
  have h := faultRun_live vma d n hp0 hd vmfs k hinfo
  rw [h.1, h.2]
  refine ⟨rfl, rfl, rfl, ?_, by simp, by simp⟩
  intro q hq
  simp [Function.update_noteq hq]

/-- Witness for C9: three consecutive faults on `vmaMapped` in `kernelSession`. -/
theorem mmap_fault_idempotent_witness :
    (faultRun kernelSession vmaMapped [⟨none⟩, ⟨none⟩, ⟨some 4096⟩]).1 =
      List.replicate 3 (.ok 0, ⟨some (virt_to_page 4096)⟩) ∧
    (faultRun kernelSession vmaMapped [⟨none⟩, ⟨none⟩, ⟨some 4096⟩]).2.infos =
      kernelSession.infos ∧
    (faultRun kernelSession vmaMapped [⟨none⟩, ⟨none⟩, ⟨some 4096⟩]).2.mmap_device_mutex =
      kernelSession.mmap_device_mutex ∧
    (∀ q, q ≠ 4096 →
      (faultRun kernelSession vmaMapped [⟨none⟩, ⟨none⟩, ⟨some 4096⟩]).2.pages q =
        kernelSession.pages q) ∧
    ((faultRun kernelSession vmaMapped [⟨none⟩, ⟨none⟩, ⟨some 4096⟩]).2.pages 4096).bytes =
      (kernelSession.pages 4096).bytes ∧
    ((faultRun kernelSession vmaMapped [⟨none⟩, ⟨none⟩, ⟨some 4096⟩]).2.pages 4096).count =
      (kernelSession.pages 4096).count + 3 :=
  mmap_fault_idempotent kernelSession vmaMapped 4096 2 [⟨none⟩, ⟨none⟩, ⟨some 4096⟩]
    (by decide) rfl (by decide)

/-- Claim C10, as stated, fails: the fault on a record whose `data` is null and
the fault that binds the page of `kernelSession` report the same result, 0. -/
theorem fault_no_data_result_counterexample :
    kernelNoData.infos vmaMapped.vm_private_data = .live ⟨0, 1⟩ ∧
    (mmap_fault kernelNoData vmaMapped ⟨none⟩).1 = .ok 0 ∧
    (mmap_fault kernelNoData vmaMapped ⟨none⟩).2.2.page = none ∧
    (mmap_fault kernelSession vmaMapped ⟨none⟩).1 = .ok 0 ∧
    (mmap_fault kernelSession vmaMapped ⟨none⟩).2.2.page = some 4096 ∧
    (mmap_fault kernelNoData vmaMapped ⟨none⟩).1 =
      (mmap_fault kernelSession vmaMapped ⟨none⟩).1 := by
  decide

/-- Claim C10, amended. On a session record whose `data` is null `mmap_fault` is
a no-op: it returns 0, binds no page into the fault descriptor, takes no page
use and leaves the whole state unchanged; the value it returns is the value
returned by a fault that bound a page, so the two differ only in the `page`
field of the descriptor. -/
theorem mmap_fault_no_data_noop (k : Kernel) (vma : vm_area_struct) (vmf : vm_fault) (n : Int)
    (hp0 : vma.vm_private_data ≠ 0) (hinfo : k.infos vma.vm_private_data = .live ⟨0, n⟩) :
    mmap_fault k vma vmf = (.ok 0, k, vmf) ∧
    ∀ (k2 : Kernel) (vma2 : vm_area_struct) (vmf2 : vm_fault) (d2 : Nat) (n2 : Int),
      vma2.vm_private_data ≠ 0 → k2.infos vma2.vm_private_data = .live ⟨d2, n2⟩ → d2 ≠ 0 →
      (mmap_fault k2 vma2 vmf2).2.2.page = some d2 ∧
      (mmap_fault k2 vma2 vmf2).1 = (mmap_fault k vma vmf).1 := by
  have h := mmap_fault_no_data k vma vmf n hp0 hinfo
  refine ⟨h, ?_⟩
  intro k2 vma2 vmf2 d2 n2 hq0 hinfo2 hd2
  rw [h, mmap_fault_live k2 vma2 vmf2 d2 n2 hq0 hinfo2 hd2]
  exact ⟨rfl, rfl⟩

/-- Witness for C10 amended: a fault on `vmaMapped` in `kernelNoData`. -/
theorem mmap_fault_no_data_noop_witness :
    mmap_fault kernelNoData vmaMapped ⟨none⟩ = (.ok 0, kernelNoData, ⟨none⟩) ∧
    ∀ (k2 : Kernel) (vma2 : vm_area_struct) (vmf2 : vm_fault) (d2 : Nat) (n2 : Int),
      vma2.vm_private_data ≠ 0 → k2.infos vma2.vm_private_data = .live ⟨d2, n2⟩ → d2 ≠ 0 →
      (mmap_fault k2 vma2 vmf2).2.2.page = some d2 ∧
      (mmap_fault k2 vma2 vmf2).1 = (mmap_fault kernelNoData vmaMapped ⟨none⟩).1 :=
  mmap_fault_no_data_noop kernelNoData vmaMapped ⟨none⟩ 1 (by decide) rfl
end MmapExample
